import Mathlib

/-!
Verification model of src/analysis/scalability_test.py (the incremental
scalability benchmark harness).

Modelling conventions:
* Python JSON values are embedded as the inductive `Json`; a response body
  that fails to parse (`response.json()` raising) is `Option.none`.
* HTTP traffic of `requests` is embedded as an `HttpOutcome` oracle value:
  either a delivered response (status code, content length, parsed body,
  text) or a raised `requests.exceptions.RequestException` with a message.
* Wall-clock latencies (floats in the source) are modelled as rationals;
  timestamps as opaque naturals supplied by the oracle.
* Randomness (`random.choice`, `random.sample`) and the database / network
  environment are modelled as an explicit `Oracle` of unconstrained
  functions, so every theorem quantifies over all random draws and all
  network behaviours.
* Python `int` counters that stay non-negative throughout the script are
  modelled as `Nat`; the only subtraction performed
  (`max_properties - current_properties`) sits under a `> 0` guard in both
  the source and the model, so truncated subtraction agrees with Python.
-/

/-- Json mirrors the shape of values produced by `response.json()`. -/
inductive Json where
  | null
  | bool (b : Bool)
  | num (n : Nat)
  | str (s : String)
  | arr (items : List Json)
  | obj (fields : List (String × Json))

/-- lookupField models Python dict indexing `d[key]` (first binding wins). -/
def lookupField (key : String) : List (String × Json) → Option Json
  | [] => none
  | (k, v) :: rest => if k = key then some v else lookupField key rest

/-- containsKey models the Python membership test `key in d`. -/
def containsKey (key : String) (fields : List (String × Json)) : Bool :=
  (lookupField key fields).isSome

/-- jsonLen models Python `len(x)`: defined for lists, strings and dicts,
`none` models the `TypeError` raised on any other value. -/
def jsonLen : Json → Option Nat
  | .arr xs => some xs.length
  | .str s => some s.length
  | .obj fs => some fs.length
  | _ => none

/-- charsLe checks that the first char list is a leading segment of the
second (structurally, so that the kernel can evaluate it on literals). -/
def charsLe : List Char → List Char → Bool
  | [], _ => true
  | _ :: _, [] => false
  | x :: xs, y :: ys => x == y && charsLe xs ys

/-- pyStartsWith models Python `s.startswith(pre)`. -/
def pyStartsWith (s pre : String) : Bool := charsLe pre.data s.data

/-- pyEndsWith models Python `s.endswith(suf)`. -/
def pyEndsWith (s suf : String) : Bool := charsLe suf.data.reverse s.data.reverse

/-- digitVal gives the value of a decimal digit character. -/
def digitVal (c : Char) : Option Nat :=
  if 48 ≤ c.toNat ∧ c.toNat ≤ 57 then some (c.toNat - 48) else none

/-- pyIntAux folds decimal digits into a number, `none` on a non-digit. -/
def pyIntAux : List Char → Nat → Option Nat
  | [], acc => some acc
  | c :: cs, acc =>
    match digitVal c with
    | some d => pyIntAux cs (acc * 10 + d)
    | none => none

/-- pyInt models Python `int(s)` on the non-negative decimal literals the
source produces (`none` models the `ValueError` on anything else). -/
def pyInt (s : String) : Option Nat :=
  match s.data with
  | [] => none
  | l => pyIntAux l 0

/-- splitAux is the worker of `pySplit`, accumulating the current piece in
reverse. -/
def splitAux (sep : Char) : List Char → List Char → List String
  | [], acc => [String.mk acc.reverse]
  | c :: rest, acc =>
    if c == sep then String.mk acc.reverse :: splitAux sep rest []
    else splitAux sep rest (c :: acc)

/-- pySplit models Python `s.split(sep)` for a single-character
separator. -/
def pySplit (sep : Char) (s : String) : List String := splitAux sep s.data []

/-- parseSingleCount models lines 248-257 of scalability_test.py: the
defensive extraction of `recommendations_count` from a single-contact
response body.  A raised exception anywhere is swallowed (`except: pass`),
leaving the count at 0. -/
def parseSingleCount (body : Option Json) : Nat :=
  match body with
  | none => 0
  | some data =>
    match data with
    | .obj fields =>
      if containsKey "recommendations" fields then
        match lookupField "recommendations" fields with
        | some v => (jsonLen v).getD 0
        | none => 0
      else 0
    | .arr xs => xs.length
    | _ => 0

/-- nestedRecsCount models the inner loop of lines 341-343: summing
`len(contact_recs['recommendations'])` over the entries of one
`*recommendations` list.  The `Bool` is `false` when `len` raised a
`TypeError`, which aborts the whole scan keeping the partial sum. -/
def nestedRecsCount : List Json → Nat → Nat × Bool
  | [], acc => (acc, true)
  | x :: rest, acc =>
    match x with
    | .obj fs =>
      if containsKey "recommendations" fs then
        match lookupField "recommendations" fs with
        | some v =>
          match jsonLen v with
          | some n => nestedRecsCount rest (acc + n)
          | none => (acc, false)
        | none => (acc, true)
      else nestedRecsCount rest acc
    | _ => nestedRecsCount rest acc

/-- nestedFieldsCount models the outer loop of lines 339-343: every dict
entry whose key ends in `recommendations` and whose value is a list is
scanned by `nestedRecsCount`; an aborted scan aborts the outer loop too. -/
def nestedFieldsCount : List (String × Json) → Nat → Nat × Bool
  | [], acc => (acc, true)
  | (k, v) :: rest, acc =>
    if pyEndsWith k "recommendations" then
      match v with
      | .arr xs =>
        match nestedRecsCount xs acc with
        | (acc1, true) => nestedFieldsCount rest acc1
        | (acc1, false) => (acc1, false)
      | _ => nestedFieldsCount rest acc
    else nestedFieldsCount rest acc

/-- parseBulkCount models lines 326-345 of scalability_test.py: the
three-shape defensive parse of a bulk response body (flat
`recommendations` array, `total_recommendations` count field, or nested
per-entity structure).  A non-numeric `total_recommendations` is modelled
as 0 (the source would store the raw value in the record; no claim
exercises that case). -/
def parseBulkCount (body : Option Json) : Nat :=
  match body with
  | none => 0
  | some data =>
    match data with
    | .obj fields =>
      if containsKey "recommendations" fields then
        match lookupField "recommendations" fields with
        | some v => (jsonLen v).getD 0
        | none => 0
      else if containsKey "total_recommendations" fields then
        match lookupField "total_recommendations" fields with
        | some (.num n) => n
        | _ => 0
      else if fields.any (fun kv => pyEndsWith kv.1 "recommendations") then
        (nestedFieldsCount fields 0).1
      else 0
    | _ => 0

/-- ScalabilityResult mirrors the dataclass of lines 25-37. -/
structure ScalabilityResult where
  timestamp : Nat
  total_contacts : Nat
  total_properties : Nat
  endpoint : String
  contact_id : Option Nat
  response_time_ms : ℚ
  status_code : Nat
  response_size_bytes : Nat
  recommendations_count : Nat
  success : Bool
  error_message : Option String

/-- HttpOutcome is the oracle's answer to one HTTP request: a delivered
response or a raised `RequestException`. -/
inductive HttpOutcome where
  | response (statusCode : Nat) (bodySize : Nat) (body : Option Json) (text : String)
  | exn (msg : String)

/-- test_recommendation_endpoint models lines 230-291: one single-contact
probe converted into a `ScalabilityResult`.  The function is total: both a
network exception and a non-200 status produce a record, never an escaping
exception. -/
def test_recommendation_endpoint (contact_id total_contacts total_properties : Nat)
    (outcome : HttpOutcome) (elapsedMs : ℚ) (timestamp : Nat) : ScalabilityResult :=
  match outcome with
  | .response status size body text =>
    let success := status == 200
    { timestamp, total_contacts, total_properties,
      endpoint := "single_contact", contact_id := some contact_id,
      response_time_ms := elapsedMs, status_code := status,
      response_size_bytes := size,
      recommendations_count := if success then parseSingleCount body else 0,
      success,
      error_message :=
        if success then none else some ("HTTP " ++ toString status ++ ": " ++ text.take 100) }
  | .exn msg =>
    { timestamp, total_contacts, total_properties,
      endpoint := "single_contact", contact_id := some contact_id,
      response_time_ms := elapsedMs, status_code := 0,
      response_size_bytes := 0, recommendations_count := 0, success := false,
      error_message := some msg }

/-- test_bulk_recommendation_endpoint models lines 293-379: one bulk probe.
`batchSize` models the Python default `batch_size=None`; the truthiness
test `if batch_size:` skips truncation for both `None` and `0`. -/
def test_bulk_recommendation_endpoint (contact_ids : List Nat)
    (total_contacts total_properties : Nat) (batchSize : Option Nat)
    (outcome : HttpOutcome) (elapsedMs : ℚ) (timestamp : Nat) : ScalabilityResult :=
  let ids := match batchSize with
    | some b => if b ≠ 0 then contact_ids.take b else contact_ids
    | none => contact_ids
  match outcome with
  | .response status size body text =>
    let success := status == 200
    { timestamp, total_contacts, total_properties,
      endpoint := "bulk_recommendations_" ++ toString ids.length,
      contact_id := none,
      response_time_ms := elapsedMs, status_code := status,
      response_size_bytes := size,
      recommendations_count := if success then parseBulkCount body else 0,
      success,
      error_message :=
        if success then none else some ("HTTP " ++ toString status ++ ": " ++ text.take 100) }
  | .exn msg =>
    { timestamp, total_contacts, total_properties,
      endpoint := "bulk_recommendations_" ++ toString ids.length,
      contact_id := none,
      response_time_ms := elapsedMs, status_code := 0,
      response_size_bytes := 0, recommendations_count := 0, success := false,
      error_message := some msg }

/-- DBState models the two database tables and their id sequences.  The
statement `INSERT ... RETURNING id` hands out consecutive sequence
values. -/
structure DBState where
  contacts : List Nat
  properties : List Nat
  nextContactId : Nat
  nextPropertyId : Nat

/-- add_contacts_batch models lines 110-164: inserts the next `batchSize`
contacts of the loaded pool, starting at the current row count, and
returns the assigned ids.  Pool exhaustion returns an empty or short list;
the function never fails. -/
def add_contacts_batch (pool : List Nat) (batchSize : Nat) (db : DBState) :
    List Nat × DBState :=
  if pool = [] then ([], db)
  else
    let start := db.contacts.length
    if pool.length ≤ start then ([], db)
    else
      let toAdd := (pool.drop start).take batchSize
      (((List.range toAdd.length).map (· + db.nextContactId)),
       { db with contacts := db.contacts ++ toAdd,
                 nextContactId := db.nextContactId + toAdd.length })

/-- add_properties_batch models lines 166-212, symmetric to
`add_contacts_batch`. -/
def add_properties_batch (pool : List Nat) (batchSize : Nat) (db : DBState) :
    List Nat × DBState :=
  if pool = [] then ([], db)
  else
    let start := db.properties.length
    if pool.length ≤ start then ([], db)
    else
      let toAdd := (pool.drop start).take batchSize
      (((List.range toAdd.length).map (· + db.nextPropertyId)),
       { db with properties := db.properties ++ toAdd,
                 nextPropertyId := db.nextPropertyId + toAdd.length })

/-- Oracle bundles every external effect of one run: database
connectivity, the health probe, per-insert commit success, and, for the
i-th HTTP measurement request, its outcome, elapsed wall-clock time and
timestamp; `choose`/`sample` model `random.choice`/`random.sample` and are
completely unconstrained. -/
structure Oracle where
  connectOk : Bool
  healthOk : Bool
  insertOk : Nat → Bool
  http : Nat → HttpOutcome
  elapsed : Nat → ℚ
  clock : Nat → Nat
  choose : Nat → Nat
  sample : Nat → Nat → List Nat → List Nat

/-- RunConfig mirrors the keyword arguments of run_scalability_test
(lines 381-388). -/
structure RunConfig where
  maxContacts : Nat
  maxProperties : Nat
  contactBatchSize : Nat
  propertyBatchSize : Nat
  testsPerStep : Nat
  includeBulk : Bool
  bulkBatchSizes : List Nat

/-- RunEnv is the loop-invariant part of the run state: the oracle, the
clamped targets, batch sizes and the loaded pools. -/
structure RunEnv where
  oracle : Oracle
  maxC : Nat
  maxP : Nat
  batchC : Nat
  batchP : Nat
  testsPerStep : Nat
  includeBulk : Bool
  bulkSizes : List Nat
  contactPool : List Nat
  propertyPool : List Nat

/-- RunOutcome. `ok` is a run that reached the end of the growth loop;
`fatal` models an exception (or `sys.exit`) escaping
run_scalability_test, carrying the measurement records collected before
the abort (which the source then never exports). -/
inductive RunOutcome where
  | ok (results : List ScalabilityResult) (db : DBState)
  | fatal (err : String) (collected : List ScalabilityResult)

/-- resultsOf extracts the records accumulated by a run, whether or not it
ended fatally. -/
def RunOutcome.resultsOf : RunOutcome → List ScalabilityResult
  | .ok rs _ => rs
  | .fatal _ rs => rs

/-- finalDb extracts the final database state of a non-fatal run. -/
def RunOutcome.finalDb : RunOutcome → Option DBState
  | .ok _ db => some db
  | .fatal _ _ => none

/-- listChoice models `random.choice(l)` given a random draw `i`. -/
def listChoice (l : List Nat) (i : Nat) : Nat :=
  l.getD (i % l.length) 0

/-- singleTests models the inner loop of lines 466-476: `k` single-contact
probes against the snapshot `(dbC, dbP)`, each drawing a random element of
the step's fresh `ids`.  Returns the records in probe order together with
the advanced HTTP and RNG counters. -/
def singleTests (oracle : Oracle) (ids : List Nat) (dbC dbP : Nat) :
    Nat → Nat → Nat → List ScalabilityResult × Nat × Nat
  | 0, hc, rc => ([], hc, rc)
  | k + 1, hc, rc =>
    let r := test_recommendation_endpoint (listChoice ids (oracle.choose rc)) dbC dbP
      (oracle.http hc) (oracle.elapsed hc) (oracle.clock hc)
    let rest := singleTests oracle ids dbC dbP k (hc + 1) (rc + 1)
    (r :: rest.1, rest.2)

/-- bulkTests models lines 480-491: one bulk probe per configured batch
size, skipping sizes exceeding the identifiers inserted so far. -/
def bulkTests (oracle : Oracle) (allIds : List Nat) (dbC dbP : Nat) :
    List Nat → Nat → Nat → List ScalabilityResult × Nat × Nat
  | [], hc, rc => ([], hc, rc)
  | b :: rest, hc, rc =>
    if b ≤ allIds.length then
      let r := test_bulk_recommendation_endpoint (oracle.sample rc b allIds) dbC dbP (some b)
        (oracle.http hc) (oracle.elapsed hc) (oracle.clock hc)
      let more := bulkTests oracle allIds dbC dbP rest (hc + 1) (rc + 1)
      (r :: more.1, more.2)
    else bulkTests oracle allIds dbC dbP rest hc rc

/-- minNat models Python `min(l)`; the source can only reach it with the
non-empty default `[2, 5, 10, 20]` or a non-empty `--bulk-sizes` list
(argparse `nargs` is `+`), so the `getD` default is never observed. -/
def minNat (l : List Nat) : Nat := l.min?.getD 0

/-- propertyPhase models lines 453-458: inside a growth step, properties
are topped up to at most the (clamped) property maximum; the tracked
`current_properties` counter — not the stored row count — drives the
cap.  A failed commit is fatal (`error`). -/
def propertyPhase (env : RunEnv) (db : DBState) (currentProps insertCount : Nat) :
    Except String (DBState × Nat × Nat) :=
  if currentProps < env.maxP then
    let t := min env.batchP (env.maxP - currentProps)
    if 0 < t then
      if env.oracle.insertOk insertCount then
        .ok ((add_properties_batch env.propertyPool t db).2, currentProps + t, insertCount + 1)
      else .error "property insertion failed"
    else .ok (db, currentProps, insertCount)
  else .ok (db, currentProps, insertCount)

/-- stepMeasure models the measurement half of one growth step (lines
453-510): property top-up, then `tests_per_step` single probes, then the
optional bulk probes, all against the freshly read row counts.  Returns
the step's record block and the advanced state pieces. -/
def stepMeasure (env : RunEnv) (db1 : DBState) (ids allIds1 : List Nat)
    (hc rc cp ic : Nat) :
    Except String (List ScalabilityResult × DBState × Nat × Nat × Nat × Nat) :=
  match propertyPhase env db1 cp ic with
  | .error e => .error e
  | .ok (db2, cp1, ic2) =>
    let dbC := db2.contacts.length
    let dbP := db2.properties.length
    let s1 := singleTests env.oracle ids dbC dbP env.testsPerStep hc rc
    let s2 := if env.includeBulk && decide (minNat env.bulkSizes ≤ allIds1.length)
      then bulkTests env.oracle allIds1 dbC dbP env.bulkSizes s1.2.1 s1.2.2
      else ([], s1.2.1, s1.2.2)
    .ok (s1.1 ++ s2.1, db2, cp1, ic2, s2.2.1, s2.2.2)

/-- LoopState is the mutable state of the growth loop of lines 441-510:
database, accumulated records, all inserted contact ids, the two tracked
counters, the step number and the oracle cursors. -/
structure LoopState where
  db : DBState
  results : List ScalabilityResult
  allIds : List Nat
  currentContacts : Nat
  currentProperties : Nat
  stepN : Nat
  httpCount : Nat
  insertCount : Nat
  rngCount : Nat

/-- growthLoop models the `while current_contacts < max_contacts` loop of
lines 441-510.  The `fuel` argument only bounds the recursion: every
iteration that does not exit inserts at least one contact while the count
is below `maxC`, so `maxC + 1` units of fuel (what `run_scalability_test`
passes) can never run out; a run that exhausts fuel is reported as
`fatal`, and every theorem below about `ok` runs is therefore
fuel-independent. -/
def growthLoop (env : RunEnv) : Nat → LoopState → RunOutcome
  | 0, st => .fatal "fuel exhausted" st.results
  | fuel + 1, st =>
    if st.currentContacts < env.maxC then
      if env.oracle.insertOk st.insertCount then
        let ids := (add_contacts_batch env.contactPool env.batchC st.db).1
        let db1 := (add_contacts_batch env.contactPool env.batchC st.db).2
        if ids = [] then .ok st.results db1
        else
          match stepMeasure env db1 ids (st.allIds ++ ids) st.httpCount st.rngCount
              st.currentProperties (st.insertCount + 1) with
          | .error e => .fatal e st.results
          | .ok (block, db2, cp1, ic2, hc2, rc2) =>
            growthLoop env fuel
              { db := db2, results := st.results ++ block, allIds := st.allIds ++ ids,
                currentContacts := st.currentContacts + ids.length,
                currentProperties := cp1, stepN := st.stepN + 1,
                httpCount := hc2, insertCount := ic2, rngCount := rc2 }
      else .fatal "contact insertion failed" st.results
    else .ok st.results st.db

/-- run_scalability_test models lines 381-513: connectivity and health
checks (fatal with no records), clamping of the targets to the pool
sizes, table clearing, the initial property batch (whose size ignores the
property maximum, and which sets `current_properties` to the full batch
size even when the pool provided fewer rows), then the growth loop. -/
def run_scalability_test (oracle : Oracle) (cfg : RunConfig)
    (contactPool propertyPool : List Nat) : RunOutcome :=
  if oracle.connectOk = false then .fatal "Failed to connect to database." []
  else if oracle.healthOk = false then .fatal "Server health check failed." []
  else
    let maxC := min cfg.maxContacts contactPool.length
    let maxP := min cfg.maxProperties propertyPool.length
    let db0 : DBState := { contacts := [], properties := [], nextContactId := 1, nextPropertyId := 1 }
    if oracle.insertOk 0 then
      let db1 := (add_properties_batch propertyPool cfg.propertyBatchSize db0).2
      growthLoop
        { oracle, maxC, maxP, batchC := cfg.contactBatchSize, batchP := cfg.propertyBatchSize,
          testsPerStep := cfg.testsPerStep, includeBulk := cfg.includeBulk,
          bulkSizes := cfg.bulkBatchSizes, contactPool, propertyPool }
        (maxC + 1)
        { db := db1, results := [], allIds := [], currentContacts := 0,
          currentProperties := cfg.propertyBatchSize, stepN := 0,
          httpCount := 0, insertCount := 1, rngCount := 0 }
    else .fatal "initial property insertion failed" []

/-- CsvRow mirrors one row written by save_results_to_csv (lines 515-545),
field for field. -/
structure CsvRow where
  timestamp : Nat
  total_contacts : Nat
  total_properties : Nat
  endpoint : String
  contact_id : Option Nat
  response_time_ms : ℚ
  status_code : Nat
  response_size_bytes : Nat
  recommendations_count : Nat
  success : Bool
  error_message : Option String

/-- toCsvRow is the per-record serialization of lines 530-543. -/
def toCsvRow (r : ScalabilityResult) : CsvRow :=
  { timestamp := r.timestamp, total_contacts := r.total_contacts,
    total_properties := r.total_properties, endpoint := r.endpoint,
    contact_id := r.contact_id, response_time_ms := r.response_time_ms,
    status_code := r.status_code, response_size_bytes := r.response_size_bytes,
    recommendations_count := r.recommendations_count, success := r.success,
    error_message := r.error_message }

/-- save_results_to_csv models lines 515-545: the rows written, one per
accumulated record, in insertion order (with no results the source skips
creating the file; the written row list is empty either way). -/
def save_results_to_csv (rs : List ScalabilityResult) : List CsvRow :=
  rs.map toCsvRow

/-- mainProgram models `main` of lines 647-688 (renamed, since `main` is a
reserved entry-point name in Lean): run, then export.  An exception
escaping run_scalability_test (our `fatal`) reaches the toplevel before
save_results_to_csv is called, so nothing is exported (`none`). -/
def mainProgram (oracle : Oracle) (cfg : RunConfig) (contactPool propertyPool : List Nat) :
    Option (List CsvRow) :=
  match run_scalability_test oracle cfg contactPool propertyPool with
  | .ok rs _ => some (save_results_to_csv rs)
  | .fatal _ _ => none

/-- groupKey is the grouping key of line 560:
`(total_contacts, total_properties, endpoint)`. -/
def groupKey (r : ScalabilityResult) : Nat × Nat × String :=
  (r.total_contacts, r.total_properties, r.endpoint)

/-- orderedKeys lists the distinct group keys in first-insertion order,
modelling the insertion-ordered `size_groups` dict of lines 558-563. -/
def orderedKeys (rs : List ScalabilityResult) : List (Nat × Nat × String) :=
  rs.foldl (fun ks r => if groupKey r ∈ ks then ks else ks ++ [groupKey r]) []

/-- resultsForKey is the member list of one group of `size_groups`. -/
def resultsForKey (rs : List ScalabilityResult) (k : Nat × Nat × String) :
    List ScalabilityResult :=
  rs.filter (fun r => decide (groupKey r = k))

/-- successfulOf models `[r for r in results if r.success]`. -/
def successfulOf (rs : List ScalabilityResult) : List ScalabilityResult :=
  rs.filter (·.success)

/-- meanLatency models `sum(r.response_time_ms for r in rs) / len(rs)`. -/
def meanLatency (rs : List ScalabilityResult) : ℚ :=
  (rs.map (·.response_time_ms)).sum / (rs.length : ℚ)

/-- maxContactsOf models line 619, `max(contacts for contacts, _, _ in
size_groups.keys())`; Python would raise on an empty dict, which the
source guards by `if bulk_groups:`. -/
def maxContactsOf (keys : List (Nat × Nat × String)) : Nat :=
  (keys.map (·.1)).foldl max 0

/-- bulkSizeOfEndpoint models line 632, `int(endpoint.split('_')[-1])`;
the endpoints the source builds always end in a decimal literal, so the
`getD` defaults are never observed. -/
def bulkSizeOfEndpoint (e : String) : Nat :=
  (pyInt ((pySplit '_' e).getLastD "")).getD 0

/-- singleGroupMeans models lines 624-630: the per-group mean latency of
successful single-contact records, for every group at the maximal contact
count (groups with no successful record are skipped). -/
def singleGroupMeans (rs : List ScalabilityResult) (keys : List (Nat × Nat × String))
    (maxC : Nat) : List ℚ :=
  keys.filterMap (fun k =>
    if k.1 = maxC ∧ k.2.2 = "single_contact" then
      let ok := successfulOf (resultsForKey rs k)
      if ok.isEmpty then none else some (meanLatency ok)
    else none)

/-- bulkGroupMeans models lines 624-633: `(bulk_size, mean latency)` of
successful bulk records, per group at the maximal contact count. -/
def bulkGroupMeans (rs : List ScalabilityResult) (keys : List (Nat × Nat × String))
    (maxC : Nat) : List (Nat × ℚ) :=
  keys.filterMap (fun k =>
    if k.1 = maxC ∧ ¬k.2.2 = "single_contact" ∧ pyStartsWith k.2.2 "bulk_recommendations" = true then
      let ok := successfulOf (resultsForKey rs k)
      if ok.isEmpty then none else some (bulkSizeOfEndpoint k.2.2, meanLatency ok)
    else none)

/-- pairLe is the lexicographic tuple order Python `sorted` uses on
`(bulk_size, avg_time)` pairs. -/
def pairLe (a b : Nat × ℚ) : Bool :=
  decide (a.1 < b.1) || (decide (a.1 = b.1) && decide (a.2 ≤ b.2))

/-- insertSorted is one insertion of an insertion sort by `pairLe`. -/
def insertSorted (x : Nat × ℚ) : List (Nat × ℚ) → List (Nat × ℚ)
  | [] => [x]
  | y :: ys => if pairLe x y then x :: y :: ys else y :: insertSorted x ys

/-- sortPairs models `sorted(bulk_results)` of line 639. -/
def sortPairs : List (Nat × ℚ) → List (Nat × ℚ)
  | [] => []
  | x :: xs => insertSorted x (sortPairs xs)

/-- performanceComparison models the efficiency computation of lines
613-644 of print_summary_stats: produced `(bulk_size, efficiency)` pairs,
in print order.  Efficiency is only computed when some bulk group exists,
and only for groups whose contact count equals the maximum contact count
over all groups; the denominator is the mean over the per-group single
means times the bulk size. -/
def performanceComparison (rs : List ScalabilityResult) : List (Nat × ℚ) :=
  let keys := orderedKeys rs
  if (keys.filter (fun k => pyStartsWith k.2.2 "bulk_recommendations")).isEmpty then []
  else
    let maxC := maxContactsOf keys
    let singleMeans := singleGroupMeans rs keys maxC
    let bulkMeans := bulkGroupMeans rs keys maxC
    if singleMeans.isEmpty ∨ bulkMeans.isEmpty then []
    else
      let avgSingle := singleMeans.sum / (singleMeans.length : ℚ)
      (sortPairs bulkMeans).map (fun bt => (bt.1, bt.2 / (avgSingle * (bt.1 : ℚ))))

/-! ### Helper lemmas about the batch insert operations -/

theorem acb_contacts_eq (pool : List Nat) (n : Nat) (db : DBState) :
    (add_contacts_batch pool n db).2.contacts
      = db.contacts ++ (pool.drop db.contacts.length).take n := by
  simp only [add_contacts_batch]
  split_ifs with h1 h2
  · simp [h1]
  · simp [List.drop_eq_nil_of_le (by omega : pool.length ≤ db.contacts.length)]
  · rfl

theorem acb_properties_eq (pool : List Nat) (n : Nat) (db : DBState) :
    (add_contacts_batch pool n db).2.properties = db.properties := by
  simp only [add_contacts_batch]
  split_ifs <;> rfl

theorem acb_ids_length (pool : List Nat) (n : Nat) (db : DBState) :
    (add_contacts_batch pool n db).1.length
      = if db.contacts.length < pool.length
        then min (db.contacts.length + n) pool.length - db.contacts.length
        else 0 := by
  simp only [add_contacts_batch]
  split_ifs with h1 h2 h3 <;> simp_all <;> omega

theorem apb_properties_eq (pool : List Nat) (n : Nat) (db : DBState) :
    (add_properties_batch pool n db).2.properties
      = db.properties ++ (pool.drop db.properties.length).take n := by
  simp only [add_properties_batch]
  split_ifs with h1 h2
  · simp [h1]
  · simp [List.drop_eq_nil_of_le (by omega : pool.length ≤ db.properties.length)]
  · rfl

theorem apb_contacts_eq (pool : List Nat) (n : Nat) (db : DBState) :
    (add_properties_batch pool n db).2.contacts = db.contacts := by
  simp only [add_properties_batch]
  split_ifs <;> rfl

theorem apb_ids_length (pool : List Nat) (n : Nat) (db : DBState) :
    (add_properties_batch pool n db).1.length
      = if db.properties.length < pool.length
        then min (db.properties.length + n) pool.length - db.properties.length
        else 0 := by
  simp only [add_properties_batch]
  split_ifs with h1 h2 h3 <;> simp_all <;> omega

theorem acb_len_eq (pool : List Nat) (n : Nat) (db : DBState) :
    (add_contacts_batch pool n db).2.contacts.length
      = db.contacts.length + (add_contacts_batch pool n db).1.length := by
  rw [acb_contacts_eq, acb_ids_length]
  simp only [List.length_append, List.length_take, List.length_drop]
  split_ifs <;> omega

theorem apb_len_eq (pool : List Nat) (n : Nat) (db : DBState) :
    (add_properties_batch pool n db).2.properties.length
      = db.properties.length + (add_properties_batch pool n db).1.length := by
  rw [apb_properties_eq, apb_ids_length]
  simp only [List.length_append, List.length_take, List.length_drop]
  split_ifs <;> omega

theorem acb_len_le_pool (pool : List Nat) (n : Nat) (db : DBState)
    (h : db.contacts.length ≤ pool.length) :
    (add_contacts_batch pool n db).2.contacts.length ≤ pool.length := by
  rw [acb_contacts_eq]
  simp only [List.length_append, List.length_take, List.length_drop]
  omega

theorem apb_len_le_pool (pool : List Nat) (n : Nat) (db : DBState)
    (h : db.properties.length ≤ pool.length) :
    (add_properties_batch pool n db).2.properties.length ≤ pool.length := by
  rw [apb_properties_eq]
  simp only [List.length_append, List.length_take, List.length_drop]
  omega

theorem acb_ids_le (pool : List Nat) (n : Nat) (db : DBState) :
    (add_contacts_batch pool n db).1.length ≤ n := by
  rw [acb_ids_length]; split_ifs <;> omega

theorem apb_ids_le (pool : List Nat) (n : Nat) (db : DBState) :
    (add_properties_batch pool n db).1.length ≤ n := by
  rw [apb_ids_length]; split_ifs <;> omega

theorem DBState.eq_of_fields (a b : DBState) (h1 : a.contacts = b.contacts)
    (h2 : a.properties = b.properties) (h3 : a.nextContactId = b.nextContactId)
    (h4 : a.nextPropertyId = b.nextPropertyId) : a = b := by
  cases a; cases b; simp_all

theorem acb_nextContact (pool : List Nat) (n : Nat) (db : DBState) :
    (add_contacts_batch pool n db).2.nextContactId
      = db.nextContactId + (add_contacts_batch pool n db).1.length := by
  simp only [add_contacts_batch]
  split_ifs <;> simp

theorem acb_nextProperty (pool : List Nat) (n : Nat) (db : DBState) :
    (add_contacts_batch pool n db).2.nextPropertyId = db.nextPropertyId := by
  simp only [add_contacts_batch]
  split_ifs <;> rfl

theorem acb_slice_len (pool : List Nat) (n : Nat) (db : DBState) :
    ((pool.drop db.contacts.length).take n).length
      = (add_contacts_batch pool n db).1.length := by
  have h1 := acb_len_eq pool n db
  rw [acb_contacts_eq pool n db] at h1
  simp only [List.length_append] at h1
  omega

theorem acb_nil_db (pool : List Nat) (n : Nat) (db : DBState)
    (h : (add_contacts_batch pool n db).1 = []) :
    (add_contacts_batch pool n db).2 = db := by
  have h0 : (add_contacts_batch pool n db).1.length = 0 := by rw [h]; rfl
  have hsl : ((pool.drop db.contacts.length).take n) = [] := by
    have := acb_slice_len pool n db
    exact List.eq_nil_of_length_eq_zero (by omega)
  refine DBState.eq_of_fields _ _ ?_ ?_ ?_ ?_
  · rw [acb_contacts_eq, hsl, List.append_nil]
  · exact acb_properties_eq pool n db
  · rw [acb_nextContact]; omega
  · exact acb_nextProperty pool n db

/-- c3_batch_slice_semantics: `add_contacts_batch(n)` (and symmetrically
`add_properties_batch(n)`) with current store count `c` and pool of size
`p` appends exactly the pool slice from index `c` to `min (c+n) p`, in
pool order, and returns an identifier list of length `min (c+n) p - c`
when `c < p` and `0` when `p ≤ c`.  Both functions are total Lean
functions: exhaustion yields an empty or short list, never an error. -/
theorem c3_batch_slice_semantics (pool poolP : List Nat) (n m : Nat) (db : DBState) :
    ((add_contacts_batch pool n db).2.contacts
        = db.contacts ++ (pool.drop db.contacts.length).take n)
    ∧ ((add_contacts_batch pool n db).1.length
        = if db.contacts.length < pool.length
          then min (db.contacts.length + n) pool.length - db.contacts.length
          else 0)
    ∧ ((add_contacts_batch pool n db).2.properties = db.properties)
    ∧ ((add_properties_batch poolP m db).2.properties
        = db.properties ++ (poolP.drop db.properties.length).take m)
    ∧ ((add_properties_batch poolP m db).1.length
        = if db.properties.length < poolP.length
          then min (db.properties.length + m) poolP.length - db.properties.length
          else 0)
    ∧ ((add_properties_batch poolP m db).2.contacts = db.contacts) :=
  ⟨acb_contacts_eq pool n db, acb_ids_length pool n db, acb_properties_eq pool n db,
   apb_properties_eq poolP m db, apb_ids_length poolP m db, apb_contacts_eq poolP m db⟩

/-! ### Helper lemmas about the measurement endpoints -/

theorem singleTests_length (oracle : Oracle) (ids : List Nat) (dbC dbP : Nat) :
    ∀ k hc rc, (singleTests oracle ids dbC dbP k hc rc).1.length = k := by
  intro k
  induction k with
  | zero => intro hc rc; rfl
  | succ k ih => intro hc rc; simp [singleTests, ih]

theorem nestedRecsCount_shape (xss : List (List Json)) (acc : Nat) :
    nestedRecsCount (xss.map (fun xs => Json.obj [("recommendations", Json.arr xs)])) acc
      = (acc + (xss.map List.length).sum, true) := by
  induction xss generalizing acc with
  | nil => simp [nestedRecsCount]
  | cons x rest ih =>
    simp [nestedRecsCount, containsKey, lookupField, jsonLen, ih]
    omega

/-- c7_defensive_parsing: with a successful (200) HTTP status, an
unparsable body (`none`) or a differently-shaped body (a dict without the
expected key, or a non-dict non-list value) yields
`recommendations_count = 0` while the record still has `success = true`;
and the bulk counter accepts all three documented body shapes: a flat
`recommendations` array, a `total_recommendations` count field, and a
nested per-entity structure whose values are summed. -/
theorem c7_defensive_parsing :
    (∀ cid tc tp sz text el ts,
        (test_recommendation_endpoint cid tc tp (.response 200 sz none text) el ts).success = true
        ∧ (test_recommendation_endpoint cid tc tp (.response 200 sz none text) el ts).recommendations_count = 0)
    ∧ (∀ ids tc tp b sz text el ts,
        (test_bulk_recommendation_endpoint ids tc tp b (.response 200 sz none text) el ts).success = true
        ∧ (test_bulk_recommendation_endpoint ids tc tp b (.response 200 sz none text) el ts).recommendations_count = 0)
    ∧ (∀ cid tc tp sz fields text el ts, containsKey "recommendations" fields = false →
        (test_recommendation_endpoint cid tc tp (.response 200 sz (some (.obj fields)) text) el ts).success = true
        ∧ (test_recommendation_endpoint cid tc tp (.response 200 sz (some (.obj fields)) text) el ts).recommendations_count = 0)
    ∧ (∀ cid tc tp sz n text el ts,
        (test_recommendation_endpoint cid tc tp (.response 200 sz (some (.num n)) text) el ts).success = true
        ∧ (test_recommendation_endpoint cid tc tp (.response 200 sz (some (.num n)) text) el ts).recommendations_count = 0)
    ∧ (∀ xs, parseBulkCount (some (.obj [("recommendations", .arr xs)])) = xs.length)
    ∧ (∀ n, parseBulkCount (some (.obj [("total_recommendations", .num n)])) = n)
    ∧ (∀ xss : List (List Json),
        parseBulkCount (some (.obj [("contact_recommendations",
            .arr (xss.map (fun xs => Json.obj [("recommendations", Json.arr xs)])))]))
          = (xss.map List.length).sum) := by
  refine ⟨?_, ?_, ?_, ?_, ?_, ?_, ?_⟩
  · intro cid tc tp sz text el ts
    constructor <;> rfl
  · intro ids tc tp b sz text el ts
    constructor <;> simp [test_bulk_recommendation_endpoint, parseBulkCount]
  · intro cid tc tp sz fields text el ts h
    constructor
    · rfl
    · simp [test_recommendation_endpoint, parseSingleCount, h]
  · intro cid tc tp sz n text el ts
    constructor <;> rfl
  · intro xs
    simp [parseBulkCount, containsKey, lookupField, jsonLen]
  · intro n
    simp [parseBulkCount, containsKey, lookupField]
  · intro xss
    simp [parseBulkCount, containsKey, lookupField,
      show pyEndsWith "contact_recommendations" "recommendations" = true from by decide,
      nestedFieldsCount, nestedRecsCount_shape]

/-- c7_defensive_parsing_witness instantiates the hypothesis-bearing
conjunct of `c7_defensive_parsing` at a concrete differently-shaped dict
body. -/
theorem c7_defensive_parsing_witness :
    (test_recommendation_endpoint 1 10 20
        (.response 200 7 (some (.obj [("items", Json.null)])) "") 5 0).success = true
    ∧ (test_recommendation_endpoint 1 10 20
        (.response 200 7 (some (.obj [("items", Json.null)])) "") 5 0).recommendations_count = 0 :=
  c7_defensive_parsing.2.2.1 1 10 20 7 [("items", Json.null)] "" 5 0 (by decide)

/-- c8_probe_failure_semantics: a network exception and a non-2xx HTTP
status each produce a returned `ScalabilityResult` with `success = false`
and the error captured in `error_message`; the measuring functions are
total (no exception escapes), and a step always continues through all its
probes regardless of outcomes (`singleTests` yields one record per probe
for every oracle).  In particular a bulk call answered with HTTP 503
yields `success = false` and `recommendations_count = 0`. -/
theorem c8_probe_failure_semantics :
    (∀ cid tc tp msg el ts,
        (test_recommendation_endpoint cid tc tp (.exn msg) el ts).success = false
        ∧ (test_recommendation_endpoint cid tc tp (.exn msg) el ts).error_message = some msg)
    ∧ (∀ ids tc tp b msg el ts,
        (test_bulk_recommendation_endpoint ids tc tp b (.exn msg) el ts).success = false
        ∧ (test_bulk_recommendation_endpoint ids tc tp b (.exn msg) el ts).error_message = some msg)
    ∧ (∀ cid tc tp status sz body text el ts, status ≠ 200 →
        (test_recommendation_endpoint cid tc tp (.response status sz body text) el ts).success = false
        ∧ (test_recommendation_endpoint cid tc tp (.response status sz body text) el ts).error_message
            = some ("HTTP " ++ toString status ++ ": " ++ text.take 100))
    ∧ (∀ ids tc tp b status sz body text el ts, status ≠ 200 →
        (test_bulk_recommendation_endpoint ids tc tp b (.response status sz body text) el ts).success = false
        ∧ (test_bulk_recommendation_endpoint ids tc tp b (.response status sz body text) el ts).error_message
            = some ("HTTP " ++ toString status ++ ": " ++ text.take 100))
    ∧ (∀ ids tc tp b sz body text el ts,
        (test_bulk_recommendation_endpoint ids tc tp b (.response 503 sz body text) el ts).success = false
        ∧ (test_bulk_recommendation_endpoint ids tc tp b (.response 503 sz body text) el ts).recommendations_count = 0)
    ∧ (∀ oracle ids dbC dbP k hc rc,
        (singleTests oracle ids dbC dbP k hc rc).1.length = k) := by
  refine ⟨?_, ?_, ?_, ?_, ?_, ?_⟩
  · intro cid tc tp msg el ts
    exact ⟨rfl, rfl⟩
  · intro ids tc tp b msg el ts
    constructor <;> simp [test_bulk_recommendation_endpoint]
  · intro cid tc tp status sz body text el ts h
    have hb : (status == 200) = false := beq_eq_false_iff_ne.mpr h
    constructor <;> simp [test_recommendation_endpoint, hb]
  · intro ids tc tp b status sz body text el ts h
    have hb : (status == 200) = false := beq_eq_false_iff_ne.mpr h
    constructor <;> simp [test_bulk_recommendation_endpoint, hb]
  · intro ids tc tp b sz body text el ts
    constructor <;> simp [test_bulk_recommendation_endpoint]
  · exact singleTests_length

/-- c8_probe_failure_semantics_witness instantiates the non-2xx conjunct
of `c8_probe_failure_semantics` at HTTP status 500. -/
theorem c8_probe_failure_semantics_witness :
    (test_recommendation_endpoint 1 10 20 (.response 500 0 none "boom") 5 0).success = false
    ∧ (test_recommendation_endpoint 1 10 20 (.response 500 0 none "boom") 5 0).error_message
        = some ("HTTP " ++ toString 500 ++ ": " ++ "boom".take 100) :=
  c8_probe_failure_semantics.2.2.1 1 10 20 500 0 none "boom" 5 0 (by decide)

/-- c10_success_iff_http_200: a measurement record is marked successful
exactly when the HTTP status equals 200 (201, 204 and every other status
produce a failure record carrying an `HTTP` code message), and a network
exception yields `status_code = 0`, `response_size_bytes = 0`,
`recommendations_count = 0` while the elapsed time is still recorded as
the latency. -/
theorem c10_success_iff_http_200 :
    (∀ cid tc tp status sz body text el ts,
        ((test_recommendation_endpoint cid tc tp (.response status sz body text) el ts).success = true
          ↔ status = 200))
    ∧ (∀ ids tc tp b status sz body text el ts,
        ((test_bulk_recommendation_endpoint ids tc tp b (.response status sz body text) el ts).success = true
          ↔ status = 200))
    ∧ (∀ cid tc tp status sz body text el ts, status ≠ 200 →
        (test_recommendation_endpoint cid tc tp (.response status sz body text) el ts).error_message
          = some ("HTTP " ++ toString status ++ ": " ++ text.take 100))
    ∧ (∀ cid tc tp msg el ts,
        (test_recommendation_endpoint cid tc tp (.exn msg) el ts).status_code = 0
        ∧ (test_recommendation_endpoint cid tc tp (.exn msg) el ts).response_size_bytes = 0
        ∧ (test_recommendation_endpoint cid tc tp (.exn msg) el ts).recommendations_count = 0
        ∧ (test_recommendation_endpoint cid tc tp (.exn msg) el ts).response_time_ms = el
        ∧ (test_recommendation_endpoint cid tc tp (.exn msg) el ts).success = false)
    ∧ (∀ ids tc tp b msg el ts,
        (test_bulk_recommendation_endpoint ids tc tp b (.exn msg) el ts).status_code = 0
        ∧ (test_bulk_recommendation_endpoint ids tc tp b (.exn msg) el ts).response_size_bytes = 0
        ∧ (test_bulk_recommendation_endpoint ids tc tp b (.exn msg) el ts).recommendations_count = 0
        ∧ (test_bulk_recommendation_endpoint ids tc tp b (.exn msg) el ts).response_time_ms = el
        ∧ (test_bulk_recommendation_endpoint ids tc tp b (.exn msg) el ts).success = false) := by
  refine ⟨?_, ?_, ?_, ?_, ?_⟩
  · intro cid tc tp status sz body text el ts
    simp [test_recommendation_endpoint]
  · intro ids tc tp b status sz body text el ts
    simp [test_bulk_recommendation_endpoint]
  · intro cid tc tp status sz body text el ts h
    have hb : (status == 200) = false := beq_eq_false_iff_ne.mpr h
    simp [test_recommendation_endpoint, hb]
  · intro cid tc tp msg el ts
    exact ⟨rfl, rfl, rfl, rfl, rfl⟩
  · intro ids tc tp b msg el ts
    refine ⟨?_, ?_, ?_, ?_, ?_⟩ <;> simp [test_bulk_recommendation_endpoint]

/-- c10_success_iff_http_200_witness instantiates the success-iff
conjunct of `c10_success_iff_http_200` at status 201 (another 2xx code,
nevertheless a failure). -/
theorem c10_success_iff_http_200_witness :
    ((test_recommendation_endpoint 1 10 20 (.response 201 0 none "") 5 0).success = true
      ↔ (201 : Nat) = 200)
    ∧ (test_recommendation_endpoint 1 10 20 (.response 201 0 none "") 5 0).error_message
        = some ("HTTP " ++ toString 201 ++ ": " ++ "".take 100) :=
  ⟨c10_success_iff_http_200.1 1 10 20 201 0 none "" 5 0,
   c10_success_iff_http_200.2.2.1 1 10 20 201 0 none "" 5 0 (by decide)⟩

/-! ### Record families and evaluation lemmas for the efficiency analyzer -/

/-- mkSingleResult is an abstract single-contact measurement record: only
the fields print_summary_stats reads (snapshot, endpoint, success flag,
latency) vary. -/
def mkSingleResult (c p : Nat) (succ : Bool) (t : ℚ) : ScalabilityResult :=
  { timestamp := 0, total_contacts := c, total_properties := p,
    endpoint := "single_contact", contact_id := some 0, response_time_ms := t,
    status_code := if succ then 200 else 500, response_size_bytes := 0,
    recommendations_count := 0, success := succ, error_message := none }

/-- mkBulkResult is an abstract successful bulk measurement record with an
explicit endpoint string. -/
def mkBulkResult (c p : Nat) (e : String) (t : ℚ) : ScalabilityResult :=
  { timestamp := 0, total_contacts := c, total_properties := p, endpoint := e,
    contact_id := none, response_time_ms := t, status_code := 200,
    response_size_bytes := 0, recommendations_count := 0, success := true,
    error_message := none }

/-- singlesBlock is a non-empty batch of single-contact records at one
snapshot: a leading successful record with latency `s0`, further
successful records with latencies `rest`, and failed records with
latencies `fails`. -/
def singlesBlock (c p : Nat) (s0 : ℚ) (rest fails : List ℚ) : List ScalabilityResult :=
  mkSingleResult c p true s0 ::
    (rest.map (mkSingleResult c p true) ++ fails.map (mkSingleResult c p false))

theorem filter_map_const {α β : Type} (f : α → β) (p : β → Bool) (l : List α)
    (h : ∀ a, p (f a) = true) : (l.map f).filter p = l.map f := by
  induction l with
  | nil => rfl
  | cons x xs ih => simp [List.filter_cons, h, ih]

theorem filter_map_none {α β : Type} (f : α → β) (p : β → Bool) (l : List α)
    (h : ∀ a, p (f a) = false) : (l.map f).filter p = [] := by
  induction l with
  | nil => rfl
  | cons x xs ih => simp [List.filter_cons, h, ih]

theorem foldl_addKey_mem (l : List ScalabilityResult) (ks : List (Nat × Nat × String))
    (h : ∀ r ∈ l, groupKey r ∈ ks) :
    l.foldl (fun ks r => if groupKey r ∈ ks then ks else ks ++ [groupKey r]) ks = ks := by
  induction l generalizing ks with
  | nil => rfl
  | cons x xs ih =>
    simp only [List.foldl_cons, if_pos (h x (by simp))]
    exact ih ks fun r hr => h r (by simp [hr])

theorem groupKey_mkSingle (c p : Nat) (s : Bool) (t : ℚ) :
    groupKey (mkSingleResult c p s t) = (c, p, "single_contact") := rfl

theorem groupKey_mkBulk (c p : Nat) (e : String) (t : ℚ) :
    groupKey (mkBulkResult c p e t) = (c, p, e) := rfl

theorem orderedKeys_eval (c p1 p2 : Nat) (s0 : ℚ) (rest fails : List ℚ) (e : String) (L : ℚ)
    (he2 : e ≠ "single_contact") :
    orderedKeys (singlesBlock c p1 s0 rest fails ++ [mkBulkResult c p2 e L])
      = [(c, p1, "single_contact"), (c, p2, e)] := by
  unfold orderedKeys singlesBlock
  have e1 : (mkSingleResult c p1 true s0 ::
        (rest.map (mkSingleResult c p1 true) ++ fails.map (mkSingleResult c p1 false)))
        ++ [mkBulkResult c p2 e L]
      = mkSingleResult c p1 true s0 ::
        (rest.map (mkSingleResult c p1 true)
          ++ (fails.map (mkSingleResult c p1 false) ++ [mkBulkResult c p2 e L])) := by
    simp
  rw [e1, List.foldl_cons]
  have h0 : (if groupKey (mkSingleResult c p1 true s0) ∈ ([] : List (Nat × Nat × String))
        then ([] : List (Nat × Nat × String))
        else [] ++ [groupKey (mkSingleResult c p1 true s0)])
      = [(c, p1, "single_contact")] := by
    rw [if_neg (List.not_mem_nil _)]
    simp [groupKey_mkSingle]
  rw [h0, List.foldl_append]
  rw [foldl_addKey_mem (rest.map (mkSingleResult c p1 true)) [(c, p1, "single_contact")]
    (by
      intro r hr
      rcases List.mem_map.mp hr with ⟨t, _, rfl⟩
      simp [groupKey_mkSingle])]
  rw [List.foldl_append]
  rw [foldl_addKey_mem (fails.map (mkSingleResult c p1 false)) [(c, p1, "single_contact")]
    (by
      intro r hr
      rcases List.mem_map.mp hr with ⟨t, _, rfl⟩
      simp [groupKey_mkSingle])]
  simp [groupKey_mkBulk, Prod.ext_iff, he2]

theorem resultsForKey_singles (c p1 p2 : Nat) (s0 : ℚ) (rest fails : List ℚ) (e : String) (L : ℚ)
    (he2 : e ≠ "single_contact") :
    resultsForKey (singlesBlock c p1 s0 rest fails ++ [mkBulkResult c p2 e L])
        (c, p1, "single_contact")
      = singlesBlock c p1 s0 rest fails := by
  unfold resultsForKey singlesBlock
  rw [List.cons_append, List.filter_cons, List.append_assoc, List.filter_append,
    List.filter_append]
  rw [filter_map_const _ _ _ (by intro a; simp [groupKey, mkSingleResult]),
    filter_map_const _ _ _ (by intro a; simp [groupKey, mkSingleResult])]
  simp [groupKey, mkSingleResult, mkBulkResult, he2]

theorem resultsForKey_bulk (c p1 p2 : Nat) (s0 : ℚ) (rest fails : List ℚ) (e : String) (L : ℚ)
    (he2 : e ≠ "single_contact") :
    resultsForKey (singlesBlock c p1 s0 rest fails ++ [mkBulkResult c p2 e L]) (c, p2, e)
      = [mkBulkResult c p2 e L] := by
  unfold resultsForKey singlesBlock
  rw [List.cons_append, List.filter_cons, List.append_assoc, List.filter_append,
    List.filter_append]
  rw [filter_map_none _ _ _ (by intro a; simp [groupKey, mkSingleResult, Ne.symm he2]),
    filter_map_none _ _ _ (by intro a; simp [groupKey, mkSingleResult, Ne.symm he2])]
  simp [groupKey, mkSingleResult, mkBulkResult, Ne.symm he2]

theorem successfulOf_singlesBlock (c p : Nat) (s0 : ℚ) (rest fails : List ℚ) :
    successfulOf (singlesBlock c p s0 rest fails)
      = mkSingleResult c p true s0 :: rest.map (mkSingleResult c p true) := by
  unfold successfulOf singlesBlock
  rw [List.filter_cons, List.filter_append,
    filter_map_const _ _ _ (by intro a; simp [mkSingleResult]),
    filter_map_none _ _ _ (by intro a; simp [mkSingleResult])]
  simp [mkSingleResult]

theorem meanLatency_singles (c p : Nat) (s0 : ℚ) (rest : List ℚ) :
    meanLatency (mkSingleResult c p true s0 :: rest.map (mkSingleResult c p true))
      = (s0 + rest.sum) / ((rest.length + 1 : Nat) : ℚ) := by
  unfold meanLatency
  simp only [List.map_cons, List.map_map, List.length_cons, List.length_map, List.sum_cons]
  have hmap : (rest.map ((fun r => r.response_time_ms) ∘ mkSingleResult c p true)) = rest := by
    have : ((fun r => r.response_time_ms) ∘ mkSingleResult c p true) = id := by
      funext t; simp [mkSingleResult]
    rw [this, List.map_id]
  rw [hmap]
  norm_num [mkSingleResult]

theorem meanLatency_one (r : ScalabilityResult) :
    meanLatency [r] = r.response_time_ms := by
  unfold meanLatency
  simp

theorem perfComp_single_bulk (c p1 p2 : Nat) (s0 : ℚ) (rest fails : List ℚ)
    (e : String) (k : Nat) (L : ℚ)
    (he1 : pyStartsWith e "bulk_recommendations" = true)
    (he2 : e ≠ "single_contact")
    (he3 : bulkSizeOfEndpoint e = k) :
    performanceComparison (singlesBlock c p1 s0 rest fails ++ [mkBulkResult c p2 e L])
      = [(k, L / (((s0 + rest.sum) / ((rest.length + 1 : Nat) : ℚ)) * (k : ℚ)))] := by
  have hkeys := orderedKeys_eval c p1 p2 s0 rest fails e L he2
  have hsc : pyStartsWith "single_contact" "bulk_recommendations" = false := by decide
  have hmax : maxContactsOf [(c, p1, "single_contact"), (c, p2, e)] = c := by
    simp [maxContactsOf, Nat.zero_max, Nat.max_self]
  have hne2 : (e = "single_contact") = False := by simp [he2]
  have hsingle : singleGroupMeans (singlesBlock c p1 s0 rest fails ++ [mkBulkResult c p2 e L])
        [(c, p1, "single_contact"), (c, p2, e)] c
      = [(s0 + rest.sum) / ((rest.length + 1 : Nat) : ℚ)] := by
    unfold singleGroupMeans
    simp only [List.filterMap_cons, List.filterMap_nil]
    simp only [resultsForKey_singles c p1 p2 s0 rest fails e L he2, successfulOf_singlesBlock]
    simp [hne2, meanLatency_singles]
  have hbulk : bulkGroupMeans (singlesBlock c p1 s0 rest fails ++ [mkBulkResult c p2 e L])
        [(c, p1, "single_contact"), (c, p2, e)] c
      = [(k, L)] := by
    unfold bulkGroupMeans
    simp only [List.filterMap_cons, List.filterMap_nil]
    simp only [resultsForKey_bulk c p1 p2 s0 rest fails e L he2]
    simp [hne2, he1, successfulOf, mkBulkResult, meanLatency_one, he3]
  simp only [performanceComparison, hkeys, hmax, hsingle, hbulk]
  simp only [List.filter_cons, List.filter_nil, hsc, he1]
  simp [sortPairs, insertSorted, meanLatency_one]

/-- c5_efficiency_formula: for a record set at one common snapshot `(c, p)`
holding successful single-mode measurements with latencies `s0 :: rest`,
failed single-mode measurements with latencies `fails` (excluded from the
mean), and one bulk-mode measurement whose endpoint carries batch size `k`
with observed latency `L`, the efficiency computed by
print_summary_stats is `L / (mean (s0 :: rest) * k)`. -/
theorem c5_efficiency_formula (c p : Nat) (s0 : ℚ) (rest fails : List ℚ)
    (e : String) (k : Nat) (L : ℚ)
    (he1 : pyStartsWith e "bulk_recommendations" = true)
    (he2 : e ≠ "single_contact")
    (he3 : bulkSizeOfEndpoint e = k) :
    performanceComparison (singlesBlock c p s0 rest fails ++ [mkBulkResult c p e L])
      = [(k, L / (((s0 + rest.sum) / ((rest.length + 1 : Nat) : ℚ)) * (k : ℚ)))] :=
  perfComp_single_bulk c p p s0 rest fails e k L he1 he2 he3

/-- c5_efficiency_formula_witness: the spec scenario at snapshot
(500, 900): single-mode mean 40 ms, bulk batch size 5, observed 120 ms
gives efficiency 120 / (40 × 5) = 0.6. -/
theorem c5_efficiency_formula_witness :
    performanceComparison
        (singlesBlock 500 900 40 [] [] ++ [mkBulkResult 500 900 "bulk_recommendations_5" 120])
      = [(5, (3 : ℚ) / 5)] := by
  have h := c5_efficiency_formula 500 900 40 [] [] "bulk_recommendations_5" 5 120
    (by decide) (by decide) (by decide)
  rw [h]
  norm_num

/-- c6_exact_snapshot_matching_counterexample: a single-mode record at
snapshot (100, 200) and a bulk record at snapshot (100, 300) — no two
records share a snapshot — are nevertheless combined by
print_summary_stats into the efficiency value 0.6, because the code
matches on the (maximal) contact count only and ignores the property
count; under the claim no efficiency value could be produced from these
records. -/
theorem c6_exact_snapshot_matching_counterexample :
    performanceComparison
        (singlesBlock 100 200 40 [] [] ++ [mkBulkResult 100 300 "bulk_recommendations_5" 120])
      = [(5, (3 : ℚ) / 5)]
    ∧ (singlesBlock 100 200 40 [] []).map (fun r => (r.total_contacts, r.total_properties))
        = [(100, 200)]
    ∧ ([mkBulkResult 100 300 "bulk_recommendations_5" 120]).map
        (fun r => (r.total_contacts, r.total_properties)) = [(100, 300)] := by
  refine ⟨?_, by decide, by decide⟩
  have h := perfComp_single_bulk 100 200 300 40 [] [] "bulk_recommendations_5" 5 120
    (by decide) (by decide) (by decide)
  rw [h]
  norm_num

/-- c6_contact_count_matching_amended: bulk records are matched with
single-mode records that share the same total contact count (the
comparison being made at the maximal contact count present); the property
counts of the snapshots are ignored and may differ. -/
theorem c6_contact_count_matching_amended (c p1 p2 : Nat) (s0 : ℚ) (rest fails : List ℚ)
    (e : String) (k : Nat) (L : ℚ)
    (hp : p1 ≠ p2)
    (he1 : pyStartsWith e "bulk_recommendations" = true)
    (he2 : e ≠ "single_contact")
    (he3 : bulkSizeOfEndpoint e = k) :
    performanceComparison (singlesBlock c p1 s0 rest fails ++ [mkBulkResult c p2 e L])
      = [(k, L / (((s0 + rest.sum) / ((rest.length + 1 : Nat) : ℚ)) * (k : ℚ)))] :=
  perfComp_single_bulk c p1 p2 s0 rest fails e k L he1 he2 he3

/-- c6_contact_count_matching_amended_witness: concrete instance with
property counts 10 and 20, successful single latencies 30 and 50 (mean
40), one failed single latency 70 excluded, bulk size 2 latency 100:
efficiency 100 / (40 × 2) = 5/4. -/
theorem c6_contact_count_matching_amended_witness :
    performanceComparison
        (singlesBlock 50 10 30 [50] [70] ++ [mkBulkResult 50 20 "bulk_recommendations_2" 100])
      = [(2, (5 : ℚ) / 4)] := by
  have h := c6_contact_count_matching_amended 50 10 20 30 [50] [70] "bulk_recommendations_2" 2 100
    (by decide) (by decide) (by decide) (by decide)
  rw [h]
  norm_num

/-! ### Helper lemmas for the growth loop -/

/-- snapLe compares the dataset snapshots of two records componentwise. -/
def snapLe (a b : ScalabilityResult) : Prop :=
  a.total_contacts ≤ b.total_contacts ∧ a.total_properties ≤ b.total_properties

theorem mem_of_head? {α : Type} {l : List α} {a : α} (h : a ∈ l.head?) : a ∈ l := by
  cases l with
  | nil => simp [List.head?] at h
  | cons x xs => simp [List.head?] at h; simp [h]

theorem mem_of_getLast? {α : Type} {l : List α} {a : α} (h : a ∈ l.getLast?) : a ∈ l := by
  obtain ⟨hne, rfl⟩ := List.mem_getLast?_eq_getLast h
  exact List.getLast_mem hne

theorem tre_snap (cid tc tp : Nat) (o : HttpOutcome) (el : ℚ) (ts : Nat) :
    (test_recommendation_endpoint cid tc tp o el ts).total_contacts = tc
    ∧ (test_recommendation_endpoint cid tc tp o el ts).total_properties = tp := by
  cases o <;> exact ⟨rfl, rfl⟩

theorem tbe_snap (ids : List Nat) (tc tp : Nat) (b : Option Nat) (o : HttpOutcome) (el : ℚ) (ts : Nat) :
    (test_bulk_recommendation_endpoint ids tc tp b o el ts).total_contacts = tc
    ∧ (test_bulk_recommendation_endpoint ids tc tp b o el ts).total_properties = tp := by
  cases o <;> exact ⟨rfl, rfl⟩

theorem singleTests_snap (oracle : Oracle) (ids : List Nat) (dbC dbP : Nat) :
    ∀ k hc rc r, r ∈ (singleTests oracle ids dbC dbP k hc rc).1 →
      r.total_contacts = dbC ∧ r.total_properties = dbP := by
  intro k
  induction k with
  | zero => intro hc rc r hr; simp [singleTests] at hr
  | succ k ih =>
    intro hc rc r hr
    simp only [singleTests, List.mem_cons] at hr
    rcases hr with h | h
    · subst h; exact tre_snap _ _ _ _ _ _
    · exact ih _ _ r h

theorem bulkTests_snap (oracle : Oracle) (allIds : List Nat) (dbC dbP : Nat) :
    ∀ sizes hc rc r, r ∈ (bulkTests oracle allIds dbC dbP sizes hc rc).1 →
      r.total_contacts = dbC ∧ r.total_properties = dbP := by
  intro sizes
  induction sizes with
  | nil => intro hc rc r hr; simp [bulkTests] at hr
  | cons b rest ih =>
    intro hc rc r hr
    simp only [bulkTests] at hr
    split_ifs at hr with hb
    · simp only [List.mem_cons] at hr
      rcases hr with h | h
      · subst h; exact tbe_snap _ _ _ _ _ _ _
      · exact ih _ _ r h
    · exact ih _ _ r hr

theorem chain'_of_const_snap (l : List ScalabilityResult) (a b : Nat)
    (h : ∀ r ∈ l, r.total_contacts = a ∧ r.total_properties = b) : l.Chain' snapLe := by
  induction l with
  | nil => simp
  | cons x xs ih =>
    rw [List.chain'_cons']
    refine ⟨?_, ih fun r hr => h r (by simp [hr])⟩
    intro y hy
    have hx := h x (by simp)
    have hyy := h y (by simp [mem_of_head? hy])
    exact ⟨by omega, by omega⟩

theorem propertyPhase_ok (env : RunEnv) (db : DBState) (cp ic : Nat)
    (db2 : DBState) (cp1 ic2 : Nat)
    (h : propertyPhase env db cp ic = .ok (db2, cp1, ic2)) :
    db2.contacts = db.contacts
    ∧ db.properties.length ≤ db2.properties.length
    ∧ (db.properties.length ≤ env.propertyPool.length →
        db2.properties.length ≤ env.propertyPool.length)
    ∧ (db.properties.length ≤ cp → db2.properties.length ≤ cp1)
    ∧ cp ≤ cp1
    ∧ cp1 ≤ max cp env.maxP := by
  simp only [propertyPhase] at h
  by_cases h1 : cp < env.maxP
  · rw [if_pos h1] at h
    by_cases h2 : 0 < min env.batchP (env.maxP - cp)
    · rw [if_pos h2] at h
      by_cases h3 : env.oracle.insertOk ic = true
      · rw [if_pos h3] at h
        simp only [Except.ok.injEq, Prod.mk.injEq] at h
        obtain ⟨hdb, hcp, hic⟩ := h
        subst hdb; subst hcp
        have hc := apb_contacts_eq env.propertyPool (min env.batchP (env.maxP - cp)) db
        have hl := apb_len_eq env.propertyPool (min env.batchP (env.maxP - cp)) db
        have hle := apb_ids_le env.propertyPool (min env.batchP (env.maxP - cp)) db
        refine ⟨hc, by omega, ?_, by omega, by omega, by omega⟩
        intro hp
        exact apb_len_le_pool env.propertyPool (min env.batchP (env.maxP - cp)) db hp
      · rw [if_neg h3] at h
        exact absurd h (by simp)
    · rw [if_neg h2] at h
      simp only [Except.ok.injEq, Prod.mk.injEq] at h
      obtain ⟨hdb, hcp, hic⟩ := h
      subst hdb; subst hcp
      exact ⟨rfl, le_refl _, fun hp => hp, fun hp => hp, le_refl _, by omega⟩
  · rw [if_neg h1] at h
    simp only [Except.ok.injEq, Prod.mk.injEq] at h
    obtain ⟨hdb, hcp, hic⟩ := h
    subst hdb; subst hcp
    exact ⟨rfl, le_refl _, fun hp => hp, fun hp => hp, le_refl _, by omega⟩

theorem stepMeasure_ok (env : RunEnv) (db1 : DBState) (ids allIds1 : List Nat)
    (hc rc cp ic : Nat) (block : List ScalabilityResult) (db2 : DBState)
    (cp1 ic2 hc2 rc2 : Nat)
    (h : stepMeasure env db1 ids allIds1 hc rc cp ic = .ok (block, db2, cp1, ic2, hc2, rc2)) :
    db2.contacts = db1.contacts
    ∧ db1.properties.length ≤ db2.properties.length
    ∧ (db1.properties.length ≤ env.propertyPool.length →
        db2.properties.length ≤ env.propertyPool.length)
    ∧ (db1.properties.length ≤ cp → db2.properties.length ≤ cp1)
    ∧ cp ≤ cp1
    ∧ cp1 ≤ max cp env.maxP
    ∧ (∀ r ∈ block,
        r.total_contacts = db2.contacts.length ∧ r.total_properties = db2.properties.length) := by
  unfold stepMeasure at h
  cases hpp : propertyPhase env db1 cp ic with
  | error e => rw [hpp] at h; exact absurd h (by simp)
  | ok tup =>
    obtain ⟨db2', cp1', ic2'⟩ := tup
    rw [hpp] at h
    simp only [Except.ok.injEq, Prod.mk.injEq] at h
    obtain ⟨hblock, hdb, hcp, hic, hhc, hrc⟩ := h
    subst hdb; subst hcp
    have hp := propertyPhase_ok env db1 cp ic db2' cp1' ic2' hpp
    refine ⟨hp.1, hp.2.1, hp.2.2.1, hp.2.2.2.1, hp.2.2.2.2.1, hp.2.2.2.2.2, ?_⟩
    intro r hr
    rw [← hblock] at hr
    rcases List.mem_append.mp hr with hm | hm
    · exact singleTests_snap env.oracle ids _ _ env.testsPerStep hc rc r hm
    · split_ifs at hm with hcond
      · exact bulkTests_snap env.oracle allIds1 _ _ env.bulkSizes _ _ r hm
      · simp at hm

theorem growthLoop_ok (env : RunEnv) :
    ∀ (fuel : Nat) (st : LoopState) (res : List ScalabilityResult) (fdb : DBState),
      growthLoop env fuel st = .ok res fdb →
      st.db.contacts.length ≤ env.contactPool.length →
      st.db.properties.length ≤ env.propertyPool.length →
      st.currentContacts = st.db.contacts.length →
      st.db.properties.length ≤ st.currentProperties →
      st.db.contacts.length ≤ env.maxC + env.batchC →
      (∃ suffix, res = st.results ++ suffix
        ∧ (∀ r ∈ suffix,
            st.db.contacts.length ≤ r.total_contacts
            ∧ st.db.properties.length ≤ r.total_properties
            ∧ r.total_contacts ≤ env.contactPool.length
            ∧ r.total_properties ≤ env.propertyPool.length)
        ∧ suffix.Chain' snapLe)
      ∧ st.db.contacts.length ≤ fdb.contacts.length
      ∧ st.db.properties.length ≤ fdb.properties.length
      ∧ fdb.contacts.length ≤ env.contactPool.length
      ∧ fdb.properties.length ≤ env.propertyPool.length
      ∧ fdb.contacts.length ≤ env.maxC + env.batchC
      ∧ fdb.properties.length ≤ max st.currentProperties env.maxP
      ∧ (env.maxC ≤ fdb.contacts.length
          ∨ (add_contacts_batch env.contactPool env.batchC fdb).1 = []) := by
  intro fuel
  induction fuel with
  | zero =>
    intro st res fdb h
    simp [growthLoop] at h
  | succ fuel ih =>
    intro st res fdb h h1 h2 h3 h4 h5
    rw [growthLoop] at h
    by_cases hguard : st.currentContacts < env.maxC
    · rw [if_pos hguard] at h
      by_cases hins : env.oracle.insertOk st.insertCount = true
      · rw [if_pos hins] at h
        simp only [] at h
        by_cases hids : (add_contacts_batch env.contactPool env.batchC st.db).1 = []
        · rw [if_pos hids] at h
          simp only [RunOutcome.ok.injEq] at h
          obtain ⟨hres, hfdb⟩ := h
          have hnil := acb_nil_db env.contactPool env.batchC st.db hids
          subst hres
          rw [hnil] at hfdb
          subst hfdb
          refine ⟨⟨[], by simp, by simp, by simp⟩, le_refl _, le_refl _, h1, h2, h5,
            by omega, Or.inr hids⟩
        · rw [if_neg hids] at h
          split at h
          · exact absurd h (by simp)
          · rename_i block db2 cp1 ic2 hc2 rc2 heq
            have hs := stepMeasure_ok env _ _ _ _ _ _ _ block db2 cp1 ic2 hc2 rc2 heq
            obtain ⟨hs1, hs2, hs3, hs4, hs5, hs6, hs7⟩ := hs
            have hAc := acb_contacts_eq env.contactPool env.batchC st.db
            have hAlen := acb_len_eq env.contactPool env.batchC st.db
            have hAp := acb_properties_eq env.contactPool env.batchC st.db
            have hAple := acb_len_le_pool env.contactPool env.batchC st.db h1
            have hAids := acb_ids_le env.contactPool env.batchC st.db
            have hpos : 0 < (add_contacts_batch env.contactPool env.batchC st.db).1.length :=
              List.length_pos.mpr hids
            have hdb2c : db2.contacts.length
                = st.db.contacts.length
                  + (add_contacts_batch env.contactPool env.batchC st.db).1.length := by
              rw [hs1]; exact hAlen
            have hdb2p : st.db.properties.length ≤ db2.properties.length := by
              rw [← hAp]; exact hs2
            have hih := ih ⟨db2, st.results ++ block,
                st.allIds ++ (add_contacts_batch env.contactPool env.batchC st.db).1,
                st.currentContacts
                  + (add_contacts_batch env.contactPool env.batchC st.db).1.length,
                cp1, st.stepN + 1, hc2, ic2, rc2⟩ res fdb h
              (by dsimp only; rw [hs1]; exact hAple)
              (by dsimp only; exact hs3 (by rw [hAp]; exact h2))
              (by dsimp only; omega)
              (by dsimp only; exact hs4 (by rw [hAp]; exact h4))
              (by dsimp only; omega)
            obtain ⟨⟨suffix', hres, hsuf, hchain⟩, hle1, hle2, hb1, hb2, hb3, hb4, hdisj⟩ := hih
            dsimp only at hres hsuf hchain hle1 hle2 hb4
            refine ⟨⟨block ++ suffix', ?_, ?_, ?_⟩, ?_, ?_, hb1, hb2, hb3, ?_, hdisj⟩
            · rw [hres, List.append_assoc]
            · intro r hr
              rcases List.mem_append.mp hr with hm | hm
              · have hsnap := hs7 r hm
                refine ⟨by omega, by omega, ?_, ?_⟩
                · rw [hsnap.1, hs1]; exact hAple
                · rw [hsnap.2]; exact hs3 (by rw [hAp]; exact h2)
              · have hb := hsuf r hm
                exact ⟨by omega, by omega, hb.2.2.1, hb.2.2.2⟩
            · rw [List.chain'_append]
              refine ⟨chain'_of_const_snap block _ _ hs7, hchain, ?_⟩
              intro x hx y hy
              have hxs := hs7 x (mem_of_getLast? hx)
              have hys := hsuf y (mem_of_head? hy)
              exact ⟨by omega, by omega⟩
            · omega
            · omega
            · omega
      · rw [if_neg hins] at h
        exact absurd h (by simp)
    · rw [if_neg hguard] at h
      simp only [RunOutcome.ok.injEq] at h
      obtain ⟨hres, hfdb⟩ := h
      subst hres; subst hfdb
      refine ⟨⟨[], by simp, by simp, by simp⟩, le_refl _, le_refl _, h1, h2, h5,
        by omega, Or.inl (by omega)⟩

theorem run_ok_spec (oracle : Oracle) (cfg : RunConfig) (cpool ppool : List Nat)
    (res : List ScalabilityResult) (fdb : DBState)
    (h : run_scalability_test oracle cfg cpool ppool = .ok res fdb) :
    res.Chain' snapLe
    ∧ (∀ r ∈ res, r.total_contacts ≤ cpool.length ∧ r.total_properties ≤ ppool.length)
    ∧ fdb.contacts.length ≤ cpool.length
    ∧ fdb.properties.length ≤ ppool.length
    ∧ fdb.contacts.length ≤ min cfg.maxContacts cpool.length + cfg.contactBatchSize
    ∧ fdb.properties.length ≤ max cfg.propertyBatchSize (min cfg.maxProperties ppool.length)
    ∧ (min cfg.maxContacts cpool.length ≤ fdb.contacts.length
        ∨ (add_contacts_batch cpool cfg.contactBatchSize fdb).1 = []) := by
  unfold run_scalability_test at h
  by_cases hc : oracle.connectOk = false
  · rw [if_pos hc] at h; exact absurd h (by simp)
  · rw [if_neg hc] at h
    by_cases hh : oracle.healthOk = false
    · rw [if_pos hh] at h; exact absurd h (by simp)
    · rw [if_neg hh] at h
      simp only [] at h
      by_cases hi : oracle.insertOk 0 = true
      · rw [if_pos hi] at h
        set db0 : DBState :=
          { contacts := [], properties := [], nextContactId := 1, nextPropertyId := 1 } with hdb0
        have hc1 := apb_contacts_eq ppool cfg.propertyBatchSize db0
        have hl1 := apb_len_eq ppool cfg.propertyBatchSize db0
        have hids1 := apb_ids_le ppool cfg.propertyBatchSize db0
        have hpool1 := apb_len_le_pool ppool cfg.propertyBatchSize db0 (by simp [hdb0])
        have hml := growthLoop_ok
          { oracle := oracle, maxC := min cfg.maxContacts cpool.length,
            maxP := min cfg.maxProperties ppool.length, batchC := cfg.contactBatchSize,
            batchP := cfg.propertyBatchSize, testsPerStep := cfg.testsPerStep,
            includeBulk := cfg.includeBulk, bulkSizes := cfg.bulkBatchSizes,
            contactPool := cpool, propertyPool := ppool }
          (min cfg.maxContacts cpool.length + 1)
          { db := (add_properties_batch ppool cfg.propertyBatchSize db0).2, results := [],
            allIds := [], currentContacts := 0, currentProperties := cfg.propertyBatchSize,
            stepN := 0, httpCount := 0, insertCount := 1, rngCount := 0 }
          res fdb h
          (by dsimp only; rw [hc1]; simp [hdb0])
          (by dsimp only; exact hpool1)
          (by dsimp only; rw [hc1]; simp [hdb0])
          (by dsimp only; simp [hdb0] at hl1 hids1 ⊢; omega)
          (by dsimp only; rw [hc1]; simp [hdb0])
        obtain ⟨⟨suffix, hres, hsuf, hchain⟩, _, _, hb1, hb2, hb3, hb4, hdisj⟩ := hml
        dsimp only at hres hsuf hchain hb1 hb2 hb3 hb4 hdisj
        rw [List.nil_append] at hres
        subst hres
        refine ⟨hchain, ?_, hb1, hb2, hb3, by omega, hdisj⟩
        intro r hr
        have := hsuf r hr
        exact ⟨this.2.2.1, this.2.2.2⟩
      · rw [if_neg hi] at h
        exact absurd h (by simp)

/-! ### Concrete run fixtures -/

/-- allOkOracle: every insert commits, every probe answers HTTP 200 with an
unparsable (empty) body, all clocks and random draws return 0. -/
def allOkOracle : Oracle :=
  { connectOk := true, healthOk := true, insertOk := fun _ => true,
    http := fun _ => .response 200 0 none "", elapsed := fun _ => 0,
    clock := fun _ => 0, choose := fun _ => 0, sample := fun _ _ _ => [] }

/-- c1PropConfig asks for at most 5 properties but an initial property
batch of 20. -/
def c1PropConfig : RunConfig :=
  { maxContacts := 10, maxProperties := 5, contactBatchSize := 10,
    propertyBatchSize := 20, testsPerStep := 0, includeBulk := false,
    bulkBatchSizes := [] }

/-- c1ContactConfig asks for at most 70 contacts with a batch size of 50
over a pool of 100. -/
def c1ContactConfig : RunConfig :=
  { maxContacts := 70, maxProperties := 0, contactBatchSize := 50,
    propertyBatchSize := 0, testsPerStep := 0, includeBulk := false,
    bulkBatchSizes := [] }

/-- c4Config is the spec scenario configuration: defaults (1000 contacts,
2000 properties targets, batches 50/100) with one probe per step. -/
def c4Config : RunConfig :=
  { maxContacts := 1000, maxProperties := 2000, contactBatchSize := 50,
    propertyBatchSize := 100, testsPerStep := 1, includeBulk := false,
    bulkBatchSizes := [2, 5, 10, 20] }

/-- c9Config grows 4 contacts in batches of 2 with one probe per step. -/
def c9Config : RunConfig :=
  { maxContacts := 4, maxProperties := 3, contactBatchSize := 2,
    propertyBatchSize := 1, testsPerStep := 1, includeBulk := false,
    bulkBatchSizes := [] }

/-- c9Oracle lets the first three insert batches commit and fails the
fourth — the step-2 contact insertion, after step 1 has already collected
a measurement record. -/
def c9Oracle : Oracle := { allOkOracle with insertOk := fun i => decide (i < 3) }

/-- tinyConfig: one contact, one property, no probes. -/
def tinyConfig : RunConfig :=
  { maxContacts := 1, maxProperties := 1, contactBatchSize := 1,
    propertyBatchSize := 1, testsPerStep := 0, includeBulk := false,
    bulkBatchSizes := [] }

/-- tinyProbeConfig: one contact, one property, one probe. -/
def tinyProbeConfig : RunConfig :=
  { maxContacts := 1, maxProperties := 1, contactBatchSize := 1,
    propertyBatchSize := 1, testsPerStep := 1, includeBulk := false,
    bulkBatchSizes := [] }

/-- tinyProbeRecord is the single record collected by a
`tinyProbeConfig` run against `allOkOracle` over pools `[7]` and `[9]`. -/
def tinyProbeRecord : ScalabilityResult :=
  { timestamp := 0, total_contacts := 1, total_properties := 1,
    endpoint := "single_contact", contact_id := some 1, response_time_ms := 0,
    status_code := 200, response_size_bytes := 0, recommendations_count := 0,
    success := true, error_message := none }

/-- noConnectOracle models a database connection failure. -/
def noConnectOracle : Oracle := { allOkOracle with connectOk := false }

/-- failFirstContactOracle commits the initial property batch but fails
the first contact batch, before any measurement is collected. -/
def failFirstContactOracle : Oracle := { allOkOracle with insertOk := fun i => decide (i = 0) }

/-- c1_max_bounds_counterexample: the stored counts can exceed the
configured maxima.  Left: with `maxProperties = 5` and an initial property
batch of 20, the run ends with 20 stored properties.  Right: with
`maxContacts = 70` and contact batches of 50 over a pool of 100, the run
ends with 100 stored contacts. -/
theorem c1_max_bounds_counterexample :
    ((run_scalability_test allOkOracle c1PropConfig (List.range 10) (List.range 30)).finalDb.map
        (fun db => db.properties.length) = some 20
      ∧ c1PropConfig.maxProperties = 5)
    ∧ ((run_scalability_test allOkOracle c1ContactConfig (List.range 100) []).finalDb.map
        (fun db => db.contacts.length) = some 100
      ∧ c1ContactConfig.maxContacts = 70) := by
  refine ⟨⟨?_, rfl⟩, ?_, rfl⟩ <;> decide

/-- c1_growth_bounds_amended: contacts are only inserted while the
cumulative count is below the (pool-clamped) contact maximum, so the
final stored contact count is bounded by that maximum plus one batch (and
by the pool); in-loop property insertions are capped at the property
maximum, but the initial property batch ignores it, so the final stored
property count is bounded by the larger of the property batch size and
the property maximum (and by the pool). -/
theorem c1_growth_bounds_amended (oracle : Oracle) (cfg : RunConfig)
    (cpool ppool : List Nat) (res : List ScalabilityResult) (fdb : DBState)
    (h : run_scalability_test oracle cfg cpool ppool = .ok res fdb) :
    fdb.contacts.length ≤ cpool.length
    ∧ fdb.contacts.length ≤ min cfg.maxContacts cpool.length + cfg.contactBatchSize
    ∧ fdb.properties.length ≤ ppool.length
    ∧ fdb.properties.length ≤ max cfg.propertyBatchSize (min cfg.maxProperties ppool.length) := by
  have hs := run_ok_spec oracle cfg cpool ppool res fdb h
  exact ⟨hs.2.2.1, hs.2.2.2.2.1, hs.2.2.2.1, hs.2.2.2.2.2.1⟩

set_option maxRecDepth 20000 in
/-- c1_growth_bounds_amended_witness instantiates the amended bounds at a
completed one-contact run. -/
theorem c1_growth_bounds_amended_witness :
    (DBState.mk [7] [9] 2 2).contacts.length ≤ [7].length
    ∧ (DBState.mk [7] [9] 2 2).contacts.length ≤ min tinyConfig.maxContacts [7].length + tinyConfig.contactBatchSize
    ∧ (DBState.mk [7] [9] 2 2).properties.length ≤ [9].length
    ∧ (DBState.mk [7] [9] 2 2).properties.length
        ≤ max tinyConfig.propertyBatchSize (min tinyConfig.maxProperties [9].length) :=
  c1_growth_bounds_amended allOkOracle tinyConfig [7] [9] [] ⟨[7], [9], 2, 2⟩ (by rfl)

/-- c2_snapshots_monotone_bounded: along any completed run, the dataset
snapshots recorded in consecutive measurement records are non-decreasing
in both components and never exceed the respective pool sizes, because
each insertion batch starts at the current store count and is truncated
at the pool length. -/
theorem c2_snapshots_monotone_bounded (oracle : Oracle) (cfg : RunConfig)
    (cpool ppool : List Nat) (res : List ScalabilityResult) (fdb : DBState)
    (h : run_scalability_test oracle cfg cpool ppool = .ok res fdb) :
    res.Chain' snapLe
    ∧ ∀ r ∈ res, r.total_contacts ≤ cpool.length ∧ r.total_properties ≤ ppool.length := by
  have hs := run_ok_spec oracle cfg cpool ppool res fdb h
  exact ⟨hs.1, hs.2.1⟩

set_option maxRecDepth 20000 in
/-- c2_snapshots_monotone_bounded_witness instantiates the invariant at a
completed run that collected one record. -/
theorem c2_snapshots_monotone_bounded_witness :
    ([tinyProbeRecord]).Chain' snapLe
    ∧ ∀ r ∈ [tinyProbeRecord], r.total_contacts ≤ ([7] : List Nat).length
        ∧ r.total_properties ≤ ([9] : List Nat).length :=
  c2_snapshots_monotone_bounded allOkOracle tinyProbeConfig [7] [9]
    [tinyProbeRecord] ⟨[7], [9], 2, 2⟩ (by rfl)

set_option maxRecDepth 1000000 in
/-- c4_growth_termination_and_export: for every completed run the loop
stopped because the (clamped) contact target was reached or because a
contact batch came back empty (pool exhausted) — the property pool plays
no role; and in the concrete 100-contact-pool scenario with step 50 and a
200-property pool, the collected records carry cumulative contact counts
50 then 100, the final store holds 100 contacts, the run ends without a
fatal error, and all collected records are exported to CSV. -/
theorem c4_growth_termination_and_export :
    (∀ (oracle : Oracle) (cfg : RunConfig) (cpool ppool : List Nat) res fdb,
        run_scalability_test oracle cfg cpool ppool = .ok res fdb →
        min cfg.maxContacts cpool.length ≤ fdb.contacts.length
        ∨ (add_contacts_batch cpool cfg.contactBatchSize fdb).1 = [])
    ∧ ((run_scalability_test allOkOracle c4Config (List.range 100) (List.range 200)).resultsOf.map
        (fun r => r.total_contacts) = [50, 100])
    ∧ ((run_scalability_test allOkOracle c4Config (List.range 100) (List.range 200)).finalDb.map
        (fun db => db.contacts.length) = some 100)
    ∧ (mainProgram allOkOracle c4Config (List.range 100) (List.range 200)
        = some (save_results_to_csv
            (run_scalability_test allOkOracle c4Config (List.range 100) (List.range 200)).resultsOf))
    ∧ ((run_scalability_test allOkOracle c4Config (List.range 100) (List.range 200)).resultsOf.length = 2) := by
  refine ⟨?_, by decide, by decide, by rfl, by decide⟩
  intro oracle cfg cpool ppool res fdb h
  exact (run_ok_spec oracle cfg cpool ppool res fdb h).2.2.2.2.2.2

set_option maxRecDepth 20000 in
/-- c4_growth_termination_and_export_witness instantiates the termination
disjunction at a completed one-contact run. -/
theorem c4_growth_termination_and_export_witness :
    min tinyConfig.maxContacts ([7] : List Nat).length ≤ (DBState.mk [7] [9] 2 2).contacts.length
    ∨ (add_contacts_batch [7] tinyConfig.contactBatchSize ⟨[7], [9], 2, 2⟩).1 = [] :=
  c4_growth_termination_and_export.1 allOkOracle tinyConfig [7] [9] [] ⟨[7], [9], 2, 2⟩ (by rfl)

set_option maxRecDepth 20000 in
/-- c9_partial_export_counterexample: an insertion failure in step 2,
after step 1 collected one measurement record, aborts the run; `main`
never reaches save_results_to_csv, so the collected record is not
exported — partial progress is discarded, contradicting the claim. -/
theorem c9_partial_export_counterexample :
    mainProgram c9Oracle c9Config (List.range 4) (List.range 5) = none
    ∧ (run_scalability_test c9Oracle c9Config (List.range 4) (List.range 5)).resultsOf.length = 1 := by
  exact ⟨by rfl, by decide⟩

/-- c9_export_only_on_success_amended: fatal errors before the growth
loop (connection or health-check failure) leave no collected records;
a run that completes exports exactly its collected records; a run
terminated by a fatal error exports nothing, discarding any records
collected before the error. -/
theorem c9_export_only_on_success_amended :
    (∀ (oracle : Oracle) (cfg : RunConfig) (cpool ppool : List Nat),
        (oracle.connectOk = false ∨ oracle.healthOk = false) →
        (run_scalability_test oracle cfg cpool ppool).resultsOf = [])
    ∧ (∀ (oracle : Oracle) (cfg : RunConfig) (cpool ppool : List Nat) res fdb,
        run_scalability_test oracle cfg cpool ppool = .ok res fdb →
        mainProgram oracle cfg cpool ppool = some (save_results_to_csv res))
    ∧ (∀ (oracle : Oracle) (cfg : RunConfig) (cpool ppool : List Nat) e rs,
        run_scalability_test oracle cfg cpool ppool = .fatal e rs →
        mainProgram oracle cfg cpool ppool = none) := by
  refine ⟨?_, ?_, ?_⟩
  · intro oracle cfg cpool ppool h
    unfold run_scalability_test
    rcases h with h | h
    · rw [if_pos h]; rfl
    · by_cases hc : oracle.connectOk = false
      · rw [if_pos hc]; rfl
      · rw [if_neg hc, if_pos h]; rfl
  · intro oracle cfg cpool ppool res fdb h
    unfold mainProgram
    rw [h]
  · intro oracle cfg cpool ppool e rs h
    unfold mainProgram
    rw [h]

set_option maxRecDepth 20000 in
/-- c9_export_only_on_success_amended_witness instantiates the three
amended conjuncts at concrete runs: a connection failure, a completed
run, and a fatal contact-insertion failure. -/
theorem c9_export_only_on_success_amended_witness :
    (run_scalability_test noConnectOracle tinyConfig [7] [9]).resultsOf = []
    ∧ mainProgram allOkOracle tinyConfig [7] [9]
        = some (save_results_to_csv [])
    ∧ mainProgram failFirstContactOracle tinyConfig [7] [9] = none :=
  ⟨c9_export_only_on_success_amended.1 noConnectOracle tinyConfig [7] [9] (Or.inl rfl),
   c9_export_only_on_success_amended.2.1 allOkOracle tinyConfig [7] [9] [] ⟨[7], [9], 2, 2⟩ (by rfl),
   c9_export_only_on_success_amended.2.2 failFirstContactOracle tinyConfig [7] [9]
     "contact insertion failed" [] (by rfl)⟩
